import Mathlib

/-!
Verification of the sudan-cram analysis workflow engine.

The definitions below are a shallow embedding of the Python source:
  * `backend/app/agents/workflow.py` — the LangGraph workflow
    (`_build_events_timeline_from_retrieved`, `rag_retrieval_node`,
    `event_extractor_node`, `consistency_checker_node`,
    `human_approval_node`, `should_request_human_input`),
  * `backend/app/explainability/builder.py` — `build_reasoning_tree`
    and `build_decision_prompts`,
  * `backend/app/explainability/logger.py` — `log_analysis_run`.

Python dictionaries and JSON values are embedded as the inductive type
`PyVal`; numbers are `Int`/`Rat`; the external collaborators (the LLM
client, the vector store, the filesystem) are passed in explicitly as
oracle values, with a raised exception represented by `Except.error`.
-/

namespace SudanCram

/-- A Python/JSON value, as handled by the workflow's loosely-typed
state dictionaries.  `vnone` is Python `None`. -/
inductive PyVal : Type where
  | vnone : PyVal
  | vbool : Bool → PyVal
  | vint : Int → PyVal
  | vfloat : Rat → PyVal
  | vstr : String → PyVal
  | vlist : List PyVal → PyVal
  | vdict : List (String × PyVal) → PyVal

mutual

/-- Structural (Python `==` / hash-key) equality test on embedded values. -/
def pyBeq : PyVal → PyVal → Bool
  | .vnone, .vnone => true
  | .vbool a, .vbool b => a == b
  | .vint a, .vint b => a == b
  | .vfloat a, .vfloat b => a == b
  | .vstr a, .vstr b => a == b
  | .vlist a, .vlist b => pyBeqL a b
  | .vdict a, .vdict b => pyBeqD a b
  | _, _ => false

def pyBeqL : List PyVal → List PyVal → Bool
  | [], [] => true
  | a :: as, b :: bs => pyBeq a b && pyBeqL as bs
  | _, _ => false

def pyBeqD : List (String × PyVal) → List (String × PyVal) → Bool
  | [], [] => true
  | (k, a) :: as, (l, b) :: bs => k == l && pyBeq a b && pyBeqD as bs
  | _, _ => false

end

instance : BEq PyVal := ⟨pyBeq⟩

/-- First binding of key `k` in an association list (Python dict lookup). -/
def lookupKV (kvs : List (String × PyVal)) (k : String) : Option PyVal :=
  match kvs with
  | [] => none
  | (k', v) :: rest => if k' = k then some v else lookupKV rest k

/-- Python `d.get(k, default)`. -/
def pyGetD (kvs : List (String × PyVal)) (k : String) (dflt : PyVal) : PyVal :=
  match lookupKV kvs k with
  | some v => v
  | none => dflt

/-- Python `d.get(k)` (default `None`). -/
def pyGet (kvs : List (String × PyVal)) (k : String) : PyVal :=
  pyGetD kvs k .vnone

/-- Python truthiness of an embedded value. -/
def PyVal.truthy : PyVal → Bool
  | .vnone => false
  | .vbool b => b
  | .vint n => n ≠ 0
  | .vfloat q => q ≠ 0
  | .vstr s => s ≠ ""
  | .vlist xs => !xs.isEmpty
  | .vdict kvs => !kvs.isEmpty

/-- Python `str(...)` rendering of a value, as used by f-strings in the
source.  Container and float rendering are approximate (no claim
compares a rendered container or float against a literal); strings,
ints, booleans and `None` render exactly. -/
def pyStrOf : PyVal → String
  | .vnone => "None"
  | .vbool true => "True"
  | .vbool false => "False"
  | .vint n => toString n
  | .vfloat q => toString q.num ++ "/" ++ toString q.den
  | .vstr s => s
  | .vlist _ => "[...]"
  | .vdict _ => "{...}"

/-- Python `len(v)` for values that have a length; `none` models a
`TypeError` on the others. -/
def pyLenOf : PyVal → Option Nat
  | .vlist xs => some xs.length
  | .vdict kvs => some kvs.length
  | .vstr s => some s.length
  | _ => none

/-- Python `float(v)` for numeric values (`bool` counts as numeric);
`none` models the `TypeError` raised on the others.  Numeric-string
coercion (`float("0.5")`) is not modelled — the workflow never relies
on it. -/
def pyFloat : PyVal → Option Rat
  | .vint n => some (n : Rat)
  | .vfloat q => some q
  | .vbool b => some (if b then 1 else 0)
  | _ => none

/-- Python `isinstance(v, (int, float))`; `True`/`False` are instances
of `int` in Python. -/
def pyIsNum : PyVal → Bool
  | .vint _ => true
  | .vfloat _ => true
  | .vbool _ => true
  | _ => false

def PyVal.isNone : PyVal → Bool
  | .vnone => true
  | _ => false

/-- View a value as a dict (association list).  A non-dict value here
corresponds to a Python `AttributeError` site that the workflow never
reaches on its own data. -/
def asDict : PyVal → List (String × PyVal)
  | .vdict kvs => kvs
  | _ => []

/-- Python `x or {}` followed by use as a dict, applied to an optional
state field (`state.get(k) or {}`). -/
def asDictOpt : Option PyVal → List (String × PyVal)
  | some v => asDict v
  | none => []

/-- Python `.strip()` (ASCII whitespace). -/
def pyStrip (s : String) : String :=
  ⟨(((s.data.dropWhile Char.isWhitespace).reverse.dropWhile Char.isWhitespace).reverse)⟩

/-- Python `.lower()`. -/
def pyLower (s : String) : String :=
  ⟨s.data.map Char.toLower⟩

def charsPrefixOf : List Char → List Char → Bool
  | [], _ => true
  | _ :: _, [] => false
  | c :: cs, d :: ds => c == d && charsPrefixOf cs ds

def charsSubOf (needle : List Char) : List Char → Bool
  | [] => charsPrefixOf needle []
  | c :: rest => charsPrefixOf needle (c :: rest) || charsSubOf needle rest

/-- Python `needle in hay` on strings (substring containment). -/
def pyInStr (needle hay : String) : Bool :=
  charsSubOf needle.data hay.data

/-! ## Canonical timeline builder

Embedding of `_build_events_timeline_from_retrieved`
(`backend/app/agents/workflow.py`, lines 67–120). -/

/-- The dict `e.get("metadata", {}) or {}` of a hit.  A truthy non-dict
`metadata` value would raise in Python and is mapped to the empty dict
here. -/
def metaOf (e : PyVal) : List (String × PyVal) :=
  match e with
  | .vdict kvs =>
    match lookupKV kvs "metadata" with
    | some (.vdict m) => m
    | _ => []
  | _ => []

/-- Sort key `x.get("metadata", {}).get("date", "")`: the metadata date
string, with `""` for a missing date (a present non-string date, which
would make the Python comparison raise, is also mapped to `""`). -/
def dateKeyOf (e : PyVal) : String :=
  match e with
  | .vdict kvs =>
    match lookupKV kvs "metadata" with
    | some (.vdict m) =>
      (match lookupKV m "date" with
       | some (.vstr s) => s
       | _ => "")
    | _ => ""
  | _ => ""

/-- The sort relation of the builder: ascending metadata date. -/
def dateLe (a b : PyVal) : Prop := dateKeyOf a ≤ dateKeyOf b

instance : DecidableRel dateLe := fun a b =>
  inferInstanceAs (Decidable (dateKeyOf a ≤ dateKeyOf b))

instance : IsTotal PyVal dateLe := ⟨fun a b => le_total (dateKeyOf a) (dateKeyOf b)⟩

instance : IsTrans PyVal dateLe := ⟨fun _ _ _ h h' => le_trans h h'⟩

/-- Python `sorted(retrieved_events, key=...)`: a stable ascending sort
by metadata date.  Stable sorts are extensionally unique, so Mathlib
insertion sort is the same function as the Timsort used by CPython. -/
def sortByDate (l : List PyVal) : List PyVal :=
  l.insertionSort dateLe

/-- The deduplication keys of the builder, in priority order:
`(source, "db_id", db_id)`, then `(source, "event_id", event_id)`,
then the composite fallback 5-tuple. -/
inductive DedupKey : Type where
  | byDbId (source dbId : PyVal)
  | byEventId (source eventId : PyVal)
  | composite (source date region eventType actors : PyVal)
deriving BEq

/-- The deduplication key of a metadata dict, mirroring the
`if db_id is not None / elif event_id is not None / else` chain. -/
def keyOfMeta (m : List (String × PyVal)) : DedupKey :=
  let source := pyGetD m "source" (.vstr "GDELT")
  let dbId := pyGet m "db_id"
  let eventId := pyGet m "event_id"
  if dbId.isNone = false then
    .byDbId source dbId
  else if eventId.isNone = false then
    .byEventId source eventId
  else
    .composite source (pyGet m "date") (pyGet m "region") (pyGet m "event_type")
      (let a := pyGetD m "actors" (.vlist []); if a.truthy then a else .vlist [])

/-- The key of a hit. -/
def keyOfHit (e : PyVal) : DedupKey := keyOfMeta (metaOf e)

/-- The canonical-event projection appended by the builder. -/
def canonicalEventOf (m : List (String × PyVal)) : PyVal :=
  .vdict [
    ("date", pyGet m "date"),
    ("source", pyGetD m "source" (.vstr "GDELT")),
    ("region", pyGet m "region"),
    ("event_type", pyGet m "event_type"),
    ("actors", pyGetD m "actors" (.vlist [])),
    ("fatalities", pyGet m "fatalities")]

/-- The hit-to-event projection. -/
def eventOfHit (e : PyVal) : PyVal := canonicalEventOf (metaOf e)

/-- The `for e in sorted(...)` loop body: skip a hit whose key was
already seen, otherwise record the key and append the projection. -/
def dedupLoop : List PyVal → List DedupKey → List PyVal
  | [], _ => []
  | e :: rest, seen =>
    let key := keyOfHit e
    if seen.contains key then dedupLoop rest seen
    else eventOfHit e :: dedupLoop rest (key :: seen)

/-- `_build_events_timeline_from_retrieved`: sort hits by metadata
date, then deduplicate by key, first occurrence wins, projecting each
kept hit to a canonical event. -/
def buildEventsTimelineFromRetrieved (retrieved_events : List PyVal) : List PyVal :=
  dedupLoop (sortByDate retrieved_events) []

/-- Independent spec-side formulation of first-occurrence
deduplication: keep the head, erase every later element with the same
key, recurse. -/
def keepFirstKeyed : List PyVal → List PyVal
  | [] => []
  | e :: rest =>
    e :: keepFirstKeyed (rest.filter (fun x => !(keyOfHit x == keyOfHit e)))
termination_by l => l.length
decreasing_by
  simp only [List.length_cons]
  exact Nat.lt_succ_of_le (List.length_filter_le _ _)

/-! ## Workflow state

Embedding of `SudanCRAMState` (`backend/app/agents/state.py`) with the
fields the verified nodes read or write.  Loosely-typed agent outputs
stay `Option PyVal` (`None` versus a JSON object). -/

/-- The `retrieval_context` entry stored by `rag_retrieval_node`:
the query text and the `retrieval_filters_for_log` dict, the latter as
`some (region_label, mode)` or `none` for the initial `{}`. -/
structure RetrievalContext where
  query : String
  filters : Option (String × String)
deriving DecidableEq

structure WfState where
  region : String
  raw_data : Option String
  interventions : List String
  retrieved_events : List PyVal
  events : List PyVal
  extracted_events : Option PyVal
  trend_analysis : Option PyVal
  scenarios : Option PyVal
  validation : Option PyVal
  narrative : Option String
  human_approval_required : Bool
  approval_status : Option String
  messages : List String
  confidence_score : Rat
  retrieval_context : Option RetrievalContext

/-- The `initial_state` dict built by `run_analysis`
(`workflow.py`, lines 842–872). -/
def initState (region : String) (raw_data : Option String)
    (interventions : List String) : WfState :=
  { region := region
    raw_data := raw_data
    interventions := interventions
    retrieved_events := []
    events := []
    extracted_events := none
    trend_analysis := none
    scenarios := none
    validation := none
    narrative := none
    human_approval_required := false
    approval_status := none
    messages := []
    confidence_score := 0
    retrieval_context := none }

/-- The mode recorded in `state["retrieval_context"]["filters"]`. -/
def retrievalMode (s : WfState) : Option String :=
  s.retrieval_context.bind (fun c => c.filters.map Prod.snd)

/-- Outcome of one call to an external collaborator:
`Except.error` models a raised exception. -/
abbrev CallResult (α : Type) := Except String α

/-- The two vector-store queries `rag_retrieval_node` can issue:
the exact region-filter query (`filters={"region": region}, top_k=20`)
and the unfiltered query (`filters=None, top_k=50`). -/
structure VectorStoreOracle where
  exactSearch : CallResult (List PyVal)
  fallbackSearch : CallResult (List PyVal)

/-- The metadata region string of a hit,
`str(r.get("metadata", {}).get("region", "")).lower()` containment is
tested against this. -/
def hitRegionStr (r : PyVal) : String :=
  pyStrOf (pyGetD (metaOf r) "region" (.vstr ""))

/-! ## Retrieval stage

Embedding of `rag_retrieval_node` (`workflow.py`, lines 126–249). -/

def rag_retrieval_node (vs : VectorStoreOracle) (state : WfState) : WfState :=
  let region := pyStrip state.region
  let query_text :=
    if region ≠ "" then "recent conflict events in " ++ region
    else "recent conflict events in Sudan"
  -- Step 1: region-focused search with exact payload filter.
  let step1 : List String × List PyVal × Option (String × String) :=
    if region ≠ "" then
      let exc : List String × List PyVal :=
        match vs.exactSearch with
        | .ok rs => ([], rs)
        | .error e => (["⚠️ Region-filtered RAG search error: " ++ e], [])
      let msgs0 := exc.1
      let region_results := exc.2
      if region_results.isEmpty = false then
        (msgs0 ++ ["Retrieved " ++ toString region_results.length ++
            " region-focused events for " ++ region ++ " (exact filter)"],
          region_results, some (region, "region_exact"))
      else
        (msgs0 ++ ["No region-specific matches from exact filter; using semantic fallback"],
          [], none)
    else ([], [], none)
  let msgs1 := step1.1
  let results1 := step1.2.1
  let filters1 := step1.2.2
  -- Step 2: fallback / main search if no region-specific results yet.
  let step2 : List String × List PyVal × Option (String × String) :=
    if results1.isEmpty then
      let exc : List String × List PyVal :=
        match vs.fallbackSearch with
        | .ok rs => ([], rs)
        | .error e => (["⚠️ Fallback RAG search error: " ++ e], [])
      let msgs0 := exc.1
      let fallback_results := exc.2
      if region ≠ "" ∧ fallback_results.isEmpty = false then
        let region_lower := pyLower region
        let region_semantic := fallback_results.filter
          (fun r => pyInStr region_lower (pyLower (hitRegionStr r)))
        if region_semantic.isEmpty = false then
          (msgs1 ++ msgs0 ++ ["Retrieved " ++ toString (region_semantic.take 20).length ++
              " region-focused events for " ++ region ++ " (semantic filter)"],
            region_semantic.take 20, some (region, "semantic_region_filter"))
        else
          (msgs1 ++ msgs0 ++ ["No region-specific matches; used Sudan-wide context instead",
              "Retrieved " ++ toString fallback_results.length ++ " events for region " ++ region],
            fallback_results, some ("Sudan", "national_fallback"))
      else
        (msgs1 ++ msgs0 ++ ["Retrieved " ++ toString fallback_results.length ++
            " Sudan-wide events (" ++
            (if region = "" then "no region specified" else "fallback") ++ ")"],
          fallback_results,
          some (if region ≠ "" then "Sudan" else "Sudan (no_region_specified)",
            if region ≠ "" then "national" else "national_no_region"))
    else (msgs1, results1, filters1)
  let results := step2.2.1
  { state with
      messages := state.messages ++ step2.1,
      retrieved_events := results,
      events := buildEventsTimelineFromRetrieved results,
      retrieval_context := some { query := query_text, filters := step2.2.2 } }

/-! ## Model-calling stages

The LLM collaborator either raises or returns a response text; the
`json.loads` outcome on that text is carried alongside it (`none` for
a parse exception). -/

inductive LlmResult : Type where
  | raised (msg : String)
  | replied (raw : String) (parsed : Option PyVal)

/-- The `{"error": "parse_failed", "raw": response.content}` marker. -/
def parseFailMarker (raw : String) : PyVal :=
  .vdict [("error", .vstr "parse_failed"), ("raw", .vstr raw)]

/-- Embedding of `event_extractor_node` (`workflow.py`, lines
252–315).  Note the source guards only `json.loads` and the uses of
`result` with `try`; the `llm.invoke` call itself is outside the
`try` block, so a raised model call propagates (`Except.error`).  The
varying Python exception text interpolated into log messages is
elided. -/
def event_extractor_node (llm : LlmResult) (state : WfState) : Except String WfState :=
  let rawTruthy := match state.raw_data with
    | none => false
    | some r => r ≠ ""
  if rawTruthy = false then
    .ok { state with
          extracted_events := none,
          messages := state.messages ++ ["No raw_data provided; skipping event extraction"] }
  else
    match llm with
    | .raised e => .error e
    | .replied rawResp parsed =>
      match parsed with
      | some result =>
        match result with
        | .vdict kvs =>
          -- `n = len(result.get("events", []))`; a `TypeError` here is
          -- still inside the `try` block and degrades to the marker.
          match pyLenOf (pyGetD kvs "events" (.vlist [])) with
          | some n =>
            .ok { state with
                  extracted_events := some result,
                  messages := state.messages ++
                    ["Extracted " ++ toString n ++ " events from raw_data"] }
          | none =>
            .ok { state with
                  extracted_events := some (parseFailMarker rawResp),
                  messages := state.messages ++ ["⚠️ Event extraction JSON parse failed: "] }
        | _ =>
          -- a parsed non-dict makes `result.get` raise inside the `try`
          .ok { state with
                extracted_events := some (parseFailMarker rawResp),
                messages := state.messages ++ ["⚠️ Event extraction JSON parse failed: "] }
      | none =>
        .ok { state with
              extracted_events := some (parseFailMarker rawResp),
              messages := state.messages ++ ["⚠️ Event extraction JSON parse failed: "] }

/-- The scan over pessimistic scenario risk probabilities in
`consistency_checker_node` (`workflow.py`, lines 468–475):
`risk_probability` values that are `int`/`float` instances. -/
def scenarioRiskProbs (scenarios : Option PyVal) : List Rat :=
  let scList := match pyGet (asDictOpt scenarios) "scenarios" with
    | .vlist xs => xs
    | _ => []
  scList.filterMap (fun s =>
    let pess := asDict (pyGet (asDict s) "pessimistic")
    let rp := pyGet pess "risk_probability"
    if pyIsNum rp then pyFloat rp else none)

/-- Embedding of the tail of `consistency_checker_node`
(`workflow.py`, lines 547–567): store the parsed validation object and
`float(result.get("overall_confidence", 0.5))`, or degrade to the
parse-failure marker with the 0.5 default.  As in the source, the
`llm.invoke` call is outside the `try` block and a raised model call
propagates. -/
def consistency_checker_node (llm : LlmResult) (state : WfState) : Except String WfState :=
  match llm with
  | .raised e => .error e
  | .replied rawResp parsed =>
    match parsed with
    | some result =>
      match result with
      | .vdict kvs =>
        match pyFloat (pyGetD kvs "overall_confidence" (.vfloat (1/2))) with
        | some conf =>
          .ok { state with
                validation := some result,
                confidence_score := conf,
                messages := state.messages ++
                  ["Validation: " ++ pyStrOf (pyGetD kvs "validation_status" (.vstr "UNKNOWN")) ++
                    " (confidence=" ++ pyStrOf (.vfloat conf) ++ ")"] }
        | none =>
          .ok { state with
                validation := some (parseFailMarker rawResp),
                confidence_score := 1/2,
                messages := state.messages ++ ["⚠️ Validation JSON parse failed: "] }
      | _ =>
        .ok { state with
              validation := some (parseFailMarker rawResp),
              confidence_score := 1/2,
              messages := state.messages ++ ["⚠️ Validation JSON parse failed: "] }
    | none =>
      .ok { state with
            validation := some (parseFailMarker rawResp),
            confidence_score := 1/2,
            messages := state.messages ++ ["⚠️ Validation JSON parse failed: "] }

/-! ## Approval gate and conditional edge

Embedding of `human_approval_node` and `should_request_human_input`
(`workflow.py`, lines 570–599) and of the conditional edge wiring
(lines 712–719). -/

def human_approval_node (state : WfState) : WfState :=
  -- `state.get("confidence_score", 0.0)`: the field is total here and
  -- initialised to 0.0 by `initState`, matching the source default.
  let conf := state.confidence_score
  if conf < 7/10 then
    { state with
      human_approval_required := true,
      approval_status := some "pending",
      messages := state.messages ++
        ["⚠️ Human approval required (confidence=" ++ pyStrOf (.vfloat conf) ++ ")"] }
  else
    { state with
      human_approval_required := false,
      approval_status := some "auto-approved",
      messages := state.messages ++
        ["✅ Auto-approved (confidence=" ++ pyStrOf (.vfloat conf) ++ ")"] }

def should_request_human_input (state : WfState) : String :=
  if state.confidence_score < 7/10 then "request_approval" else "finalize"

/-- The conditional edge of the compiled graph after
`consistency_checker`: `"request_approval"` routes through
`human_approval`, `"finalize"` goes straight to the narrative stage.
Either way the next node is `narrative_generator`. -/
def approvalPhase (state : WfState) : WfState :=
  if should_request_human_input state = "request_approval" then
    human_approval_node state
  else
    state

/-! ## Explainability builder

Embedding of `build_decision_prompts` and `build_reasoning_tree`
(`backend/app/explainability/builder.py`). -/

/-- Prompt appended when overall confidence is below 0.7. -/
def promptLowConfidence : String :=
  "Overall confidence is below 0.7. Which parts of this assessment would you want to double-check manually before acting?"

/-- Prompt appended when validation reported `WARNING`/`FAILED`. -/
def promptValidationIssues : String :=
  "Validation reported issues. Do you agree with the identified inconsistencies, or do they suggest a problem in the data or in the model\x27s assumptions?"

/-- Prompt appended when fewer than 5 canonical events were found. -/
def promptFewEvents : String :=
  "The system only found a small number of recent events. Could there be missing data sources or reporting gaps for this region?"

/-- Prompt appended when a forecast likelihood is at least 70. -/
def promptHighRisk : String :=
  "Short-term escalation risk is high. What contingency plans or alternative scenarios should be considered if this forecast turns out to be wrong?"

/-- The generic reflection prompt used when no rule fired. -/
def promptGeneric : String :=
  "Which assumption in this assessment, if wrong, would most change your decision?"

/-- The `risk_candidates` list of `build_decision_prompts`: the
numeric values among the two `forecast_7_days` likelihood entries. -/
def riskCandidates (trend_analysis : Option PyVal) : List Rat :=
  let trends := asDictOpt trend_analysis
  let forecast := asDict (pyGet trends "forecast_7_days")
  [pyGet forecast "armed_clash_likelihood",
    pyGet forecast "civilian_targeting_likelihood"].filterMap
    (fun v => if pyIsNum v then pyFloat v else none)

/-- Embedding of `build_decision_prompts` (`builder.py`, lines
219–278). -/
def build_decision_prompts (state : WfState) : List String :=
  let conf := state.confidence_score
  let validation := asDictOpt state.validation
  let events := state.events
  let prompts1 := if conf < 7/10 then [promptLowConfidence] else []
  let status := pyGet validation "validation_status"
  let prompts2 := prompts1 ++
    (if status == PyVal.vstr "WARNING" || status == PyVal.vstr "FAILED" then
      [promptValidationIssues] else [])
  let prompts3 := prompts2 ++ (if events.length < 5 then [promptFewEvents] else [])
  let prompts4 := prompts3 ++
    (match riskCandidates state.trend_analysis with
     | [] => []
     | x :: xs => if 70 ≤ xs.foldl max x then [promptHighRisk] else [])
  if prompts4.isEmpty then [promptGeneric] else prompts4

structure EvidenceItem where
  source : String
  description : String
  event : Option PyVal

structure ReasoningNode where
  id : String
  name : String
  description : String
  status : String
  evidence : List EvidenceItem
  children : List ReasoningNode

/-- Python `", ".join(strs)`. -/
def joinComma : List String → String
  | [] => ""
  | [s] => s
  | s :: rest => s ++ ", " ++ joinComma rest

/-- Python `d.get(k)` on an optional-dict state field. -/
def optGet (v : Option PyVal) (k : String) : PyVal :=
  pyGet (asDictOpt v) k

/-- Evidence line for one sampled canonical event in the retrieval
node. -/
def eventEvidence (ev : PyVal) : EvidenceItem :=
  let kvs := asDict ev
  { source := pyStrOf (pyGetD kvs "source" (.vstr "unknown"))
    description := pyStrOf (pyGet kvs "date") ++ " – " ++ pyStrOf (pyGet kvs "event_type") ++
      " in " ++ pyStrOf (pyGet kvs "region") ++ " involving " ++
      joinComma ((match pyGetD kvs "actors" (.vlist []) with
        | .vlist xs => xs
        | _ => []).map pyStrOf)
    event := some ev }

/-- Embedding of `build_reasoning_tree` (`builder.py`, lines 16–216),
as the `ReasoningNode` tree before its `to_dict` serialization. -/
def build_reasoning_tree (state : WfState) : ReasoningNode :=
  let events := state.events
  let trends := asDictOpt state.trend_analysis
  let scenarios := asDictOpt state.scenarios
  let validation := asDictOpt state.validation
  let messages := state.messages
  let mode :=
    let m := match state.retrieval_context with
      | some c => match c.filters with
        | some f => f.2
        | none => ""
      | none => ""
    if m ≠ "" then m else "unknown"
  let retrieval_node : ReasoningNode :=
    { id := "rag_retrieval"
      name := "Information Retrieval (RAG)"
      description := "Retrieved " ++ toString events.length ++ " events using mode \x27" ++
        mode ++ "\x27."
      status := "completed"
      evidence := (events.take 3).map eventEvidence
      children := [] }
  let extAttempt : String × String :=
    match state.extracted_events with
    | none => ("skipped", "No raw_data provided; event extraction was skipped.")
    | some ext =>
      if (lookupKV (asDict ext) "error").isSome then
        ("error", "Event extraction attempted but JSON parsing failed.")
      else
        ("completed", "Extracted " ++
          toString (match pyGet (asDict ext) "events" with
            | .vlist xs => xs.length
            | _ => 0) ++ " events from raw text.")
  let event_node : ReasoningNode :=
    { id := "event_extractor", name := "Agent A – Event Extraction"
      description := extAttempt.2, status := extAttempt.1
      evidence := [], children := [] }
  let trendAttempt : String × String :=
    if trends.isEmpty || (lookupKV trends "error").isSome then
      ("error", "Trend analysis not available or failed.")
    else
      ("completed", "Trend classified as " ++ pyStrOf (pyGet trends "trend_classification") ++
        " with confidence " ++ pyStrOf (pyGet trends "confidence") ++ ".")
  let driverEvidence := (match pyGet trends "drivers" with
    | .vlist xs => xs
    | _ => []).map (fun d =>
      { source := "trend_analysis", description := "Driver: " ++ pyStrOf d,
        event := none : EvidenceItem })
  let forecast := asDict (pyGet trends "forecast_7_days")
  let forecastEvidence : List EvidenceItem :=
    if forecast.isEmpty then [] else
      [{ source := "trend_analysis"
         description := "7-day forecast – armed_clash_likelihood=" ++
           pyStrOf (pyGet forecast "armed_clash_likelihood") ++
           ", civilian_targeting_likelihood=" ++
           pyStrOf (pyGet forecast "civilian_targeting_likelihood")
         event := none }]
  let trend_node : ReasoningNode :=
    { id := "trend_analyst", name := "Agent B – Trend & Forecast"
      description := trendAttempt.2, status := trendAttempt.1
      evidence := driverEvidence ++ forecastEvidence, children := [] }
  let scenario_list := match pyGet scenarios "scenarios" with
    | .vlist xs => xs
    | _ => []
  let scenAttempt : String × String :=
    if scenario_list.isEmpty then
      ("skipped", "No interventions provided; no scenarios were generated.")
    else
      ("completed", "Evaluated " ++ toString scenario_list.length ++ " intervention scenarios.")
  let scenario_node : ReasoningNode :=
    { id := "scenario_generator", name := "Agent C – Scenario Generator"
      description := scenAttempt.2, status := scenAttempt.1
      evidence := (scenario_list.take 3).map (fun s =>
        { source := "scenario_generator"
          description := "Intervention \x27" ++ pyStrOf (pyGet (asDict s) "intervention") ++
            "\x27: recommend " ++ pyStrOf (pyGet (asDict s) "recommendation") ++
            " (success " ++ pyStrOf (pyGet (asDict (pyGet (asDict s) "optimistic")) "success_probability") ++
            "%, risk " ++ pyStrOf (pyGet (asDict (pyGet (asDict s) "pessimistic")) "risk_probability") ++ "%)"
          event := none })
      children := [] }
  let valAttempt : String × String :=
    if validation.isEmpty || (lookupKV validation "error").isSome then
      ("error", "Validation not available or failed.")
    else
      ("completed", "Validation status: " ++ pyStrOf (pyGet validation "validation_status") ++ ".")
  let validation_node : ReasoningNode :=
    { id := "consistency_checker", name := "Agent D – Consistency Checker"
      description := valAttempt.2, status := valAttempt.1
      evidence := (match pyGet validation "issues" with
        | .vlist xs => xs
        | _ => []).map (fun issue =>
          { source := "validation"
            description := pyStrOf (pyGet (asDict issue) "type") ++ ": " ++
              pyStrOf (pyGet (asDict issue) "description")
            event := none })
      children := [] }
  let narrTruthy := match state.narrative with
    | none => false
    | some n => n ≠ ""
  let narrAttempt : String × String :=
    if narrTruthy then
      ("completed", "Generated a human-readable brief summarizing the assessment.")
    else
      ("skipped", "Narrative brief not generated.")
  let narrative_node : ReasoningNode :=
    { id := "narrative", name := "Agent E – Narrative Generator"
      description := narrAttempt.2, status := narrAttempt.1
      evidence := (messages.drop (messages.length - 5)).map (fun msg =>
        { source := "log", description := msg, event := none })
      children := [] }
  { id := "root"
    name := "SudanCRAM Analysis"
    description := "End-to-end analysis for region " ++ state.region
    status := "completed"
    evidence := []
    children := [retrieval_node, event_node, trend_node, scenario_node,
      validation_node, narrative_node] }

/-! ## Audit logger

Embedding of `log_analysis_run` and `get_log_dir`
(`backend/app/explainability/logger.py`).  The filesystem is an
oracle; the JSONL log file is modelled as the list of its JSON
records. -/

structure IoOracle where
  /-- Outcome of `path.mkdir(parents=True, exist_ok=True)` in
  `get_log_dir`. -/
  mkdirResult : Except String Unit
  /-- Outcome of opening the log file and writing the record. -/
  writeResult : Except String Unit
  /-- `uuid.uuid4().hex`. -/
  freshRunId : String
  /-- `os.getenv("SUDANCRAM_AUDIT_LOG_DIR")`. -/
  envLogDir : Option String
  /-- `datetime.utcnow().isoformat()`. -/
  now : String

/-- The base directory `os.getenv(DEFAULT_LOG_DIR_ENV) or
"data/audit_logs"`. -/
def logDirBase (env : Option String) : String :=
  match env with
  | some s => if s ≠ "" then s else "data/audit_logs"
  | none => "data/audit_logs"

/-- Embedding of `get_log_dir`: resolve the base directory from the
environment (default `data/audit_logs`) and create it — the `mkdir`
is not guarded by any `try`, so its failure propagates. -/
def get_log_dir (io : IoOracle) : Except String String :=
  match io.mkdirResult with
  | .ok _ => .ok (logDirBase io.envLogDir)
  | .error e => .error e

/-- Embedding of `get_model_and_data_metadata` at the default
environment (the env-var overrides are not modelled — no claim touches
them). -/
def get_model_and_data_metadata : PyVal :=
  .vdict [
    ("llm_model", .vstr "qwen2.5:14b"),
    ("llm_base_url", .vstr "http://localhost:11434"),
    ("embedding_model", .vstr "Alibaba-NLP/gte-multilingual-base"),
    ("vector_store_collection", .vstr "sudan_events"),
    ("data_sources", .vlist [.vdict [
      ("name", .vstr "GDELT"),
      ("description", .vstr "Global Database of Events, Language, and Tone")]])]

/-- `payload.get("run_id") or uuid.uuid4().hex`. -/
def runIdOf (io : IoOracle) (payload : PyVal) : PyVal :=
  let v := pyGet (asDict payload) "run_id"
  if v.truthy then v else .vstr io.freshRunId

/-- The record serialized onto one line of the JSONL file. -/
def auditRecord (io : IoOracle) (payload : PyVal) : PyVal :=
  .vdict [
    ("run_id", runIdOf io payload),
    ("logged_at", .vstr io.now),
    ("payload", payload),
    ("meta", get_model_and_data_metadata)]

/-- Embedding of `log_analysis_run`: returns `(run_id, log_path,
new file content)`.  Only the open/write is inside the `try`; a
failure there is swallowed and signalled by an empty `log_path`. -/
def log_analysis_run (io : IoOracle) (payload : PyVal) (logFile : List PyVal) :
    Except String (PyVal × String × List PyVal) :=
  let run_id := runIdOf io payload
  let record := auditRecord io payload
  match get_log_dir io with
  | .error e => .error e
  | .ok dir =>
    let log_file_path := dir ++ "/analysis_runs.jsonl"
    match io.writeResult with
    | .ok _ => .ok (run_id, log_file_path, logFile ++ [record])
    | .error _ => .ok (run_id, "", logFile)

/-! ## Concrete run fixtures used by the counterexample theorems -/

/-- A fresh run state for region Khartoum with no raw text and no
interventions. -/
def stKhartoum : WfState := initState "Khartoum" none []

/-- The same run with a raw text report attached. -/
def stKhartoumRaw : WfState := initState "Khartoum" (some "field report") []

/-- A typical vector-store hit for Khartoum. -/
def hitKhartoum : PyVal :=
  .vdict [("id", .vstr "h1"), ("score", .vstr "0.9"),
    ("metadata", .vdict [
      ("source", .vstr "ACLED"),
      ("date", .vstr "2023-01-01"),
      ("region", .vstr "Khartoum"),
      ("event_type", .vstr "battle"),
      ("actors", .vlist [.vstr "SAF"]),
      ("fatalities", .vint 2)])]

/-- The canonical event projected from `hitKhartoum`. -/
def eventKhartoum : PyVal :=
  .vdict [("date", .vstr "2023-01-01"), ("source", .vstr "ACLED"),
    ("region", .vstr "Khartoum"), ("event_type", .vstr "battle"),
    ("actors", .vlist [.vstr "SAF"]), ("fatalities", .vint 2)]

/-- The all-default canonical event produced from an empty metadata
dict. -/
def defaultCanonicalEvent : PyVal := canonicalEventOf []

/-! ## Claim theorems -/

/-- Claim C1, counterexample.  The claim says a raised model call is
caught by the stage, with the output set to null and the run
continuing.  In the source the `llm.invoke` call of
`event_extractor_node` sits outside the `try` block, so on a state
with raw text a raised model call propagates out of the stage instead
of being caught. -/
theorem extractor_model_exception_escapes :
    event_extractor_node (.raised "model server unreachable") stKhartoumRaw =
      .error "model server unreachable" := rfl

/-- Claim C1, amended.  Retrieval-collaborator exceptions are caught:
with both vector-store calls raising, the retrieval stage still
returns, records the fallback warning, and proceeds with zero hits
under a national mode.  A missing raw text skips extraction without
any model call, and a model response that fails to parse degrades to
the parse-failure marker.  But an exception raised by the extraction
model call itself propagates to the caller. -/
theorem collaborator_failure_policy_amended :
    (∀ (e₁ e₂ : String) (s : WfState),
      (rag_retrieval_node ⟨.error e₁, .error e₂⟩ s).retrieved_events = [] ∧
      (rag_retrieval_node ⟨.error e₁, .error e₂⟩ s).events = [] ∧
      ("⚠️ Fallback RAG search error: " ++ e₂) ∈ (rag_retrieval_node ⟨.error e₁, .error e₂⟩ s).messages ∧
      retrievalMode (rag_retrieval_node ⟨.error e₁, .error e₂⟩ s) =
        some (if pyStrip s.region = "" then "national_no_region" else "national")) ∧
    (∀ (llm : LlmResult) (s : WfState),
      event_extractor_node llm { s with raw_data := none } =
        .ok { s with
              raw_data := none,
              extracted_events := none,
              messages := s.messages ++ ["No raw_data provided; skipping event extraction"] }) ∧
    (∀ (rtext : String) (s : WfState),
      event_extractor_node (.replied rtext none) { s with raw_data := some "field report" } =
        .ok { s with
              raw_data := some "field report",
              extracted_events := some (parseFailMarker rtext),
              messages := s.messages ++ ["⚠️ Event extraction JSON parse failed: "] }) ∧
    (∀ (e : String) (s : WfState),
      event_extractor_node (.raised e) { s with raw_data := some "field report" } =
        .error e) := by
  refine ⟨fun e₁ e₂ s => ?_, fun llm s => ?_, fun rtext s => ?_, fun e s => ?_⟩
  · by_cases h : pyStrip s.region = "" <;>
      simp [rag_retrieval_node, retrievalMode, h, buildEventsTimelineFromRetrieved,
        sortByDate, dedupLoop]
  · simp [event_extractor_node]
  · simp [event_extractor_node]
  · simp [event_extractor_node]

/-- Claim C2, evaluation at the failing boundary.  At confidence 0.69
the conditional edge routes through the approval gate, which sets
status `pending` and requires approval, as claimed.  At confidence
0.70 the edge routes straight to the narrative stage: the gate node
never runs, so the final approval status stays `None` (the initial
value) and `approval_required` stays `false` — not `auto-approved` as
claimed.  The `auto-approved` branch inside `human_approval_node`
(which matches the claim exactly) is unreachable in the compiled
graph, so the wiring, not the claim, is the slip. -/
theorem approval_gate_boundary :
    (approvalPhase { stKhartoum with confidence_score := 69/100 }).approval_status = some "pending" ∧
    (approvalPhase { stKhartoum with confidence_score := 69/100 }).human_approval_required = true ∧
    (approvalPhase { stKhartoum with confidence_score := 7/10 }).approval_status = none ∧
    (approvalPhase { stKhartoum with confidence_score := 7/10 }).human_approval_required = false := by
  refine ⟨?_, ?_, ?_, ?_⟩ <;>
    · norm_num [approvalPhase, should_request_human_input, human_approval_node,
        stKhartoum, initState]
      try simp

/-- Claim C9, confirmed.  The conditional edge after the consistency
stage routes to the approval gate exactly when the gate, run on the
same state, would set status `pending`: both compare
`confidence_score` against the same 0.70 threshold. -/
theorem edge_gate_threshold_agreement (s : WfState) :
    should_request_human_input s = "request_approval" ↔
      (human_approval_node s).approval_status = some "pending" := by
  by_cases h : s.confidence_score < 7/10 <;>
    simp [should_request_human_input, human_approval_node, h]

/-- Claim C5, counterexample.  A model response that parses
successfully with `overall_confidence` 1.5 is stored verbatim: the
stage performs no clamping, so the resulting confidence score is 1.5,
outside `[0,1]`, contradicting the claim that the score always lands
in `[0,1]`. -/
theorem confidence_not_clamped :
    (consistency_checker_node
        (.replied "resp" (some (.vdict [("validation_status", .vstr "PASSED"),
          ("issues", .vlist []), ("overall_confidence", .vfloat (3/2))])))
        stKhartoum).map WfState.confidence_score = .ok (3/2) ∧
      ¬ ((3/2 : Rat) ≤ 1) := by
  exact ⟨rfl, by norm_num⟩

/-- Claim C5, amended.  On a parse failure the validation output
degrades to the parse-failure marker and the confidence score takes
the 0.5 default; on a successful parse the confidence score equals
the parsed `overall_confidence` verbatim (no clamping — it lies in
`[0,1]` only when the model value does), and a parsed object without
the key gets the 0.5 default. -/
theorem validation_confidence_amended :
    (∀ (rtext : String) (s : WfState),
      consistency_checker_node (.replied rtext none) s =
        .ok { s with
              validation := some (parseFailMarker rtext),
              confidence_score := 1/2,
              messages := s.messages ++ ["⚠️ Validation JSON parse failed: "] }) ∧
    (∀ (rtext : String) (s : WfState) (q : Rat) (kvs : List (String × PyVal)),
      (consistency_checker_node
          (.replied rtext (some (.vdict (("overall_confidence", .vfloat q) :: kvs)))) s).map
        WfState.confidence_score = .ok q) ∧
    (∀ (rtext : String) (s : WfState),
      consistency_checker_node (.replied rtext (some (.vdict []))) s =
        .ok { s with
              validation := some (.vdict []),
              confidence_score := 1/2,
              messages := s.messages ++
                ["Validation: UNKNOWN (confidence=" ++ pyStrOf (.vfloat (1/2)) ++ ")"] }) := by
  refine ⟨fun rtext s => rfl, fun rtext s q kvs => ?_, fun rtext s => ?_⟩
  · simp [consistency_checker_node, pyGetD, lookupKV, pyFloat, pyStrOf, Except.map]
  · rfl

/-- Claim C8, counterexample.  The claim says the audit append never
raises.  But `get_log_dir` runs `path.mkdir(...)` outside any `try`
block, so a directory-creation failure (for example a permission
error) propagates to the caller of `log_analysis_run`. -/
theorem audit_mkdir_exception_escapes :
    log_analysis_run
        { mkdirResult := .error "Permission denied", writeResult := .ok (),
          freshRunId := "f8a2c4", envLogDir := none, now := "2026-01-01T00:00:00" }
        (.vdict []) [] = .error "Permission denied" := rfl

/-- Claim C8, amended.  When the log directory is created
successfully: a write failure is swallowed and signalled by an empty
log path with the file unchanged, and a successful write appends
exactly one record and returns the non-empty log path.  A payload
without a truthy `run_id` gets the fresh random identifier, a payload
with one keeps it.  A directory-creation failure, however,
propagates. -/
theorem audit_logger_amended :
    (∀ (fresh now : String) (env : Option String) (payload : PyVal) (log : List PyVal),
      log_analysis_run
          { mkdirResult := .ok (), writeResult := .ok (), freshRunId := fresh,
            envLogDir := env, now := now } payload log =
        .ok (runIdOf { mkdirResult := .ok (), writeResult := .ok (), freshRunId := fresh,
                       envLogDir := env, now := now } payload,
          logDirBase env ++ "/analysis_runs.jsonl",
          log ++ [auditRecord { mkdirResult := .ok (), writeResult := .ok (),
                                freshRunId := fresh, envLogDir := env, now := now } payload])) ∧
    (∀ env : Option String, logDirBase env ++ "/analysis_runs.jsonl" ≠ "") ∧
    (∀ (e fresh now : String) (env : Option String) (payload : PyVal) (log : List PyVal),
      log_analysis_run
          { mkdirResult := .ok (), writeResult := .error e, freshRunId := fresh,
            envLogDir := env, now := now } payload log =
        .ok (runIdOf { mkdirResult := .ok (), writeResult := .error e, freshRunId := fresh,
                       envLogDir := env, now := now } payload, "", log)) ∧
    (∀ (e fresh now : String) (w : Except String Unit) (env : Option String)
        (payload : PyVal) (log : List PyVal),
      log_analysis_run
          { mkdirResult := .error e, writeResult := w, freshRunId := fresh,
            envLogDir := env, now := now } payload log = .error e) ∧
    (∀ io : IoOracle, runIdOf io (.vdict []) = .vstr io.freshRunId) ∧
    (∀ io : IoOracle, runIdOf io (.vdict [("run_id", .vstr "r123")]) = .vstr "r123") := by
  refine ⟨fun fresh now env payload log => ?_, fun env => ?_,
    fun e fresh now env payload log => ?_, fun e fresh now w env payload log => ?_,
    fun io => rfl, fun io => rfl⟩
  · simp [log_analysis_run, get_log_dir, logDirBase]
  · intro h
    have h2 := congrArg String.length h
    rw [String.length_append] at h2
    simp only [String.length] at h2
    simp at h2
  · simp [log_analysis_run, get_log_dir, logDirBase]
  · simp [log_analysis_run, get_log_dir, logDirBase]

/-- Claim C10, confirmed.  When the scenario stage output is the
parse-failure marker (a dict with an `error` key and no `scenarios`
list), the reasoning tree gives the scenario child status `skipped`
with the no-interventions description — exactly the same node as a
genuine skip (`scenarios = None`) — rather than status `error`. -/
theorem scenario_parse_failure_reported_skipped (s : WfState) (raw : String) :
    (build_reasoning_tree { s with scenarios := some (parseFailMarker raw) }).children[3]?.map
        (fun n => (n.status, n.description)) =
      some ("skipped", "No interventions provided; no scenarios were generated.") ∧
    (build_reasoning_tree { s with scenarios := none }).children[3]?.map
        (fun n => (n.status, n.description)) =
      some ("skipped", "No interventions provided; no scenarios were generated.") := by
  constructor <;> rfl

/-! ### Timeline builder lemmas -/

/-- A canonical event has no `metadata` key, so feeding it back into
the builder reads an empty metadata dict. -/
theorem metaOf_eventOfHit (x : PyVal) : metaOf (eventOfHit x) = [] := rfl

theorem dateKeyOf_eventOfHit (x : PyVal) : dateKeyOf (eventOfHit x) = "" := rfl

theorem keyOfHit_eventOfHit (x : PyVal) : keyOfHit (eventOfHit x) = keyOfMeta [] := rfl

theorem eventOfHit_eventOfHit (x : PyVal) : eventOfHit (eventOfHit x) = canonicalEventOf [] := rfl

/-- Every element of the dedup loop output is the projection of some
hit. -/
theorem dedupLoop_mem_shape (l : List PyVal) :
    ∀ (seen : List DedupKey) (e : PyVal), e ∈ dedupLoop l seen → ∃ x, e = eventOfHit x := by
  induction l with
  | nil => intro seen e he; simp [dedupLoop] at he
  | cons a t ih =>
    intro seen e he
    by_cases h : seen.contains (keyOfHit a)
    · exact ih seen e (by simpa [dedupLoop, h] using he)
    · rw [show dedupLoop (a :: t) seen = eventOfHit a :: dedupLoop t (keyOfHit a :: seen) by
        simp [dedupLoop, h]] at he
      rcases List.mem_cons.mp he with h1 | h1
      · exact ⟨a, h1⟩
      · exact ih _ e h1

/-- A list whose elements all carry the empty sort key is already
sorted, so the stable sort leaves it unchanged. -/
theorem sortByDate_of_const_key (l : List PyVal) (h : ∀ e ∈ l, dateKeyOf e = "") :
    sortByDate l = l := by
  refine List.Sorted.insertionSort_eq ?_
  induction l with
  | nil => exact List.sorted_nil
  | cons a t ih =>
    refine List.Pairwise.cons (fun b hb => ?_) (ih (fun e he => h e (List.mem_cons_of_mem _ he)))
    show dateLe a b
    unfold dateLe
    rw [h a (List.mem_cons_self _ _), h b (List.mem_cons_of_mem _ hb)]

/-- Once the default key has been seen, a list of hits that all carry
the default key contributes nothing further. -/
theorem dedupLoop_all_default (l : List PyVal) (h : ∀ e ∈ l, keyOfHit e = keyOfMeta []) :
    dedupLoop l [keyOfMeta []] = [] := by
  induction l with
  | nil => rfl
  | cons a t ih =>
    have hc : ([keyOfMeta []] : List DedupKey).contains (keyOfMeta []) = true := rfl
    have ha := h a (List.mem_cons_self _ _)
    simp only [dedupLoop, ha, hc, if_true]
    exact ih (fun e he => h e (List.mem_cons_of_mem _ he))

/-- Claim C3, counterexample.  The builder is not idempotent: its
output events are flat projections without the `metadata` wrapper, so
re-running the builder on its own output reads empty metadata
everywhere.  On the single Khartoum hit the first pass keeps the
ACLED event, the second pass replaces it by the all-default event. -/
theorem timeline_rebuild_differs :
    buildEventsTimelineFromRetrieved (buildEventsTimelineFromRetrieved [hitKhartoum]) ≠
      buildEventsTimelineFromRetrieved [hitKhartoum] := by
  intro hEq
  have h1 : buildEventsTimelineFromRetrieved [hitKhartoum] = [eventKhartoum] := rfl
  have h2 : buildEventsTimelineFromRetrieved (buildEventsTimelineFromRetrieved [hitKhartoum]) =
      [defaultCanonicalEvent] := rfl
  rw [h2, h1] at hEq
  simp [defaultCanonicalEvent, canonicalEventOf, eventKhartoum, pyGet, pyGetD, lookupKV] at hEq

/-- Claim C3, amended.  Because the builder's output lacks the
`metadata` wrapper, all of its events share the empty sort key and the
default composite dedup key: re-applying the builder therefore
collapses any non-empty output to the single all-default canonical
event (and is a no-op exactly on the empty output). -/
theorem timeline_rebuild_collapses (hits : List PyVal) :
    buildEventsTimelineFromRetrieved (buildEventsTimelineFromRetrieved hits) =
      if (buildEventsTimelineFromRetrieved hits).isEmpty then []
      else [defaultCanonicalEvent] := by
  have hshape := dedupLoop_mem_shape (sortByDate hits) []
  have hdk : ∀ e ∈ buildEventsTimelineFromRetrieved hits, dateKeyOf e = "" := by
    intro e he
    obtain ⟨x, rfl⟩ := hshape e he
    exact dateKeyOf_eventOfHit x
  have hk : ∀ e ∈ buildEventsTimelineFromRetrieved hits, keyOfHit e = keyOfMeta [] := by
    intro e he
    obtain ⟨x, rfl⟩ := hshape e he
    exact keyOfHit_eventOfHit x
  have hev : ∀ e ∈ buildEventsTimelineFromRetrieved hits, eventOfHit e = canonicalEventOf [] := by
    intro e he
    obtain ⟨x, rfl⟩ := hshape e he
    exact eventOfHit_eventOfHit x
  conv_lhs => rw [buildEventsTimelineFromRetrieved, sortByDate_of_const_key _ hdk]
  rcases hl : buildEventsTimelineFromRetrieved hits with _ | ⟨a, t⟩
  · rfl
  · rw [hl] at hk hev
    have hca : (([] : List DedupKey).contains (keyOfHit a)) = false := rfl
    simp only [dedupLoop, hca, Bool.false_eq_true, if_false]
    rw [hk a (List.mem_cons_self _ _),
      dedupLoop_all_default t (fun e he => hk e (List.mem_cons_of_mem _ he)),
      hev a (List.mem_cons_self _ _)]
    rfl

/-- The dedup loop with a seen set equals the independent
erase-later-duplicates formulation applied to the not-yet-seen
hits. -/
theorem dedupLoop_eq_keepFirstKeyed (l : List PyVal) :
    ∀ seen : List DedupKey,
      dedupLoop l seen =
        (keepFirstKeyed (l.filter (fun e => !(seen.contains (keyOfHit e))))).map eventOfHit := by
  induction l with
  | nil => intro seen; simp [dedupLoop, keepFirstKeyed]
  | cons a t ih =>
    intro seen
    by_cases h : seen.contains (keyOfHit a)
    · simp only [dedupLoop, h, if_true]
      rw [ih seen]
      simp [List.filter_cons, h]
    · have hfa : (!(seen.contains (keyOfHit a))) = true := by simp [h]
      simp only [dedupLoop, h, Bool.false_eq_true, if_false, List.filter_cons, hfa, if_true]
      rw [if_pos (show (!false) = true from rfl)]
      simp only [keepFirstKeyed, List.map_cons]
      congr 1
      rw [ih (keyOfHit a :: seen), List.filter_filter]
      congr 1
      congr 1
      apply List.filter_congr
      intro x _
      simp [Bool.not_or, Bool.and_comm]

/-- Claim C7, confirmed.  The builder first stable-sorts the hits
ascending by metadata date (missing dates map to the key `""`, the
least string), then walks the sorted list keeping the first occurrence
of every dedup key — equivalently, it erases every later hit whose key
matches an earlier kept hit — and projects each kept hit to its
canonical event.  The priority `db_id` over `event_id` over the
composite 5-tuple is the `keyOfMeta` chain. -/
theorem timeline_sort_dedup_characterization (hits : List PyVal) :
    (sortByDate hits).Perm hits ∧
    List.Sorted dateLe (sortByDate hits) ∧
    buildEventsTimelineFromRetrieved hits =
      (keepFirstKeyed (sortByDate hits)).map eventOfHit := by
  refine ⟨List.perm_insertionSort dateLe hits, List.sorted_insertionSort dateLe hits, ?_⟩
  rw [buildEventsTimelineFromRetrieved, dedupLoop_eq_keepFirstKeyed]
  simp

/-! ### Retrieval mode resolution (C4) -/

/-- The hits the exact region-filter query contributes (a raised
search is caught and treated as zero hits). -/
def exactHits (vs : VectorStoreOracle) : List PyVal :=
  match vs.exactSearch with
  | .ok rs => rs
  | .error _ => []

/-- The hits the unfiltered fallback query contributes (a raised
search is caught and treated as zero hits). -/
def fallbackHits (vs : VectorStoreOracle) : List PyVal :=
  match vs.fallbackSearch with
  | .ok rs => rs
  | .error _ => []

/-- The fallback hits whose metadata region contains the region string
case-insensitively. -/
def regionMatchingHits (region : String) (vs : VectorStoreOracle) : List PyVal :=
  (fallbackHits vs).filter (fun r => pyInStr (pyLower region) (pyLower (hitRegionStr r)))

/-- Spec-side restatement of the amended mode-resolution order. -/
def retrievalModeSpec (vs : VectorStoreOracle) (s : WfState) : String :=
  let region := pyStrip s.region
  if region = "" then "national_no_region"
  else if (exactHits vs).isEmpty = false then "region_exact"
  else if (fallbackHits vs).isEmpty then "national"
  else if (regionMatchingHits region vs).isEmpty = false then "semantic_region_filter"
  else "national_fallback"

/-- Spec-side restatement of the hits kept in each mode. -/
def retrievedHitsSpec (vs : VectorStoreOracle) (s : WfState) : List PyVal :=
  let region := pyStrip s.region
  if region = "" then fallbackHits vs
  else if (exactHits vs).isEmpty = false then exactHits vs
  else if (fallbackHits vs).isEmpty then []
  else if (regionMatchingHits region vs).isEmpty = false then
    (regionMatchingHits region vs).take 20
  else fallbackHits vs

/-- Claim C4, counterexample.  With a region given and zero hits from
both queries — so zero exact hits and, vacuously, zero
substring-matching unfiltered hits — the recorded mode is
`"national"`, not `"national_fallback"` as the claim requires:
`national_fallback` additionally needs at least one unfiltered hit. -/
theorem retrieval_empty_fallback_mode :
    retrievalMode (rag_retrieval_node ⟨.ok [], .ok []⟩ stKhartoum) = some "national" ∧
      ("national" : String) ≠ "national_fallback" :=
  ⟨rfl, by decide⟩

/-- Claim C4, amended.  The mode is resolved in this order: an empty
(stripped) region gives `national_no_region`; else at least one
exact-filter hit gives `region_exact`; else zero unfiltered hits give
`national`; else at least one case-insensitive substring match gives
`semantic_region_filter` with the kept hits capped at 20; else
`national_fallback` keeps all unfiltered hits. -/
theorem retrieval_mode_resolution_amended (vs : VectorStoreOracle) (s : WfState) :
    retrievalMode (rag_retrieval_node vs s) = some (retrievalModeSpec vs s) ∧
    (rag_retrieval_node vs s).retrieved_events = retrievedHitsSpec vs s := by
  rcases vs with ⟨ex, fb⟩
  by_cases hr : pyStrip s.region = ""
  · cases fb with
    | ok fs =>
      constructor <;>
        simp [rag_retrieval_node, retrievalMode, retrievalModeSpec, retrievedHitsSpec,
          exactHits, fallbackHits, hr]
    | error e =>
      constructor <;>
        simp [rag_retrieval_node, retrievalMode, retrievalModeSpec, retrievedHitsSpec,
          exactHits, fallbackHits, hr]
  · have hfb : ∀ (f : PyVal) (ft : List PyVal),
        (List.filter (fun r => pyInStr (pyLower (pyStrip s.region)) (pyLower (hitRegionStr r)))
            (f :: ft)).isEmpty = false ∨
          List.filter (fun r => pyInStr (pyLower (pyStrip s.region)) (pyLower (hitRegionStr r)))
            (f :: ft) = [] := by
      intro f ft
      rcases List.filter (fun r => pyInStr (pyLower (pyStrip s.region)) (pyLower (hitRegionStr r)))
          (f :: ft) with _ | ⟨m, mt⟩
      · exact Or.inr rfl
      · exact Or.inl rfl
    cases ex with
    | error e₁ =>
      cases fb with
      | error e₂ =>
        constructor <;>
          simp [rag_retrieval_node, retrievalMode, retrievalModeSpec, retrievedHitsSpec,
            exactHits, fallbackHits, regionMatchingHits, hr]
      | ok fs =>
        rcases hfs : fs with _ | ⟨f, ft⟩
        · constructor <;>
            simp [rag_retrieval_node, retrievalMode, retrievalModeSpec, retrievedHitsSpec,
              exactHits, fallbackHits, regionMatchingHits, hr]
        · rcases hfb f ft with hm | hm <;>
            constructor <;>
              simp [rag_retrieval_node, retrievalMode, retrievalModeSpec, retrievedHitsSpec,
                exactHits, fallbackHits, regionMatchingHits, hr, hm]
    | ok rs =>
      rcases hrs : rs with _ | ⟨r0, rt⟩
      · cases fb with
        | error e₂ =>
          constructor <;>
            simp [rag_retrieval_node, retrievalMode, retrievalModeSpec, retrievedHitsSpec,
              exactHits, fallbackHits, regionMatchingHits, hr]
        | ok fs =>
          rcases hfs : fs with _ | ⟨f, ft⟩
          · constructor <;>
              simp [rag_retrieval_node, retrievalMode, retrievalModeSpec, retrievedHitsSpec,
                exactHits, fallbackHits, regionMatchingHits, hr]
          · rcases hfb f ft with hm | hm <;>
              constructor <;>
                simp [rag_retrieval_node, retrievalMode, retrievalModeSpec, retrievedHitsSpec,
                  exactHits, fallbackHits, regionMatchingHits, hr, hm]
      · constructor <;>
          simp [rag_retrieval_node, retrievalMode, retrievalModeSpec, retrievedHitsSpec,
            exactHits, fallbackHits, hr]

/-! ### Decision prompts (C6) -/

/-- A fold over `max` reaches a bound exactly when some listed value
does. -/
theorem le_foldl_max_iff (c x : Rat) (xs : List Rat) :
    c ≤ xs.foldl max x ↔ c ≤ x ∨ ∃ y ∈ xs, c ≤ y := by
  induction xs generalizing x with
  | nil => simp
  | cons a t ih =>
    rw [List.foldl_cons, ih (max x a)]
    simp [le_max_iff, or_assoc]

/-- A run state where every threshold rule is satisfied except that
the only probability at least 70 sits in a scenario risk, which
`build_decision_prompts` never reads. -/
def stRisky : WfState :=
  { stKhartoum with
    confidence_score := 9/10,
    validation := some (.vdict [("validation_status", .vstr "PASSED"), ("issues", .vlist [])]),
    events := [.vdict [("date", .vstr "2023-01-01")], .vdict [("date", .vstr "2023-01-02")],
      .vdict [("date", .vstr "2023-01-03")], .vdict [("date", .vstr "2023-01-04")],
      .vdict [("date", .vstr "2023-01-05")]],
    trend_analysis := some (.vdict [("trend_classification", .vstr "STABLE")]),
    scenarios := some (.vdict [("scenarios", .vlist [.vdict [
      ("intervention", .vstr "ceasefire"),
      ("optimistic", .vdict [("description", .vstr "talks hold"),
        ("success_probability", .vint 40)]),
      ("pessimistic", .vdict [("description", .vstr "fighting resumes"),
        ("risk_probability", .vint 80)]),
      ("recommendation", .vstr "MODIFY")]])]) }

/-- Claim C6, counterexample.  On `stRisky` a scenario risk
probability of 80 ≥ 70 is present, so by the claim the high-risk rule
fires and its prompt must appear; but `build_decision_prompts` scans
only the trend forecast likelihoods, no rule fires, and the list is
just the generic reflection prompt. -/
theorem scenario_risk_not_prompted :
    scenarioRiskProbs stRisky.scenarios = [80] ∧
    build_decision_prompts stRisky = [promptGeneric] := by
  constructor
  · have h : scenarioRiskProbs stRisky.scenarios = [((80 : Int) : Rat)] := rfl
    rw [h]
    norm_num
  · have hc : ¬ (stRisky.confidence_score < 7/10) := by
      show ¬ ((9:Rat)/10 < 7/10)
      norm_num
    simp only [build_decision_prompts]
    rw [if_neg hc]
    rfl

/-- Claim C6, amended.  The prompt list is never empty and ignores
the scenario outputs entirely.  Each rule prompt appears exactly when
its rule fires — low confidence, validation `WARNING`/`FAILED`, fewer
than 5 events, and a trend-forecast likelihood of at least 70
(scenario risk probabilities are not consulted) — the list collapses
to the single generic prompt exactly when no rule fires, and the
degraded boundary state (confidence 0.5, no validation, no events)
gets exactly the two prompts of the rules it fires. -/
theorem decision_prompts_amended :
    (∀ s : WfState,
      build_decision_prompts s ≠ [] ∧
      (∀ v : Option PyVal, build_decision_prompts { s with scenarios := v } =
        build_decision_prompts s) ∧
      (promptLowConfidence ∈ build_decision_prompts s ↔ s.confidence_score < 7/10) ∧
      (promptValidationIssues ∈ build_decision_prompts s ↔
        (pyGet (asDictOpt s.validation) "validation_status" == PyVal.vstr "WARNING" ||
          pyGet (asDictOpt s.validation) "validation_status" == PyVal.vstr "FAILED") = true) ∧
      (promptFewEvents ∈ build_decision_prompts s ↔ s.events.length < 5) ∧
      (promptHighRisk ∈ build_decision_prompts s ↔
        ∃ r ∈ riskCandidates s.trend_analysis, 70 ≤ r) ∧
      (build_decision_prompts s = [promptGeneric] ↔
        (¬ s.confidence_score < 7/10 ∧
          ¬ (pyGet (asDictOpt s.validation) "validation_status" == PyVal.vstr "WARNING" ||
            pyGet (asDictOpt s.validation) "validation_status" == PyVal.vstr "FAILED") = true ∧
          ¬ s.events.length < 5 ∧
          ¬ ∃ r ∈ riskCandidates s.trend_analysis, 70 ≤ r))) ∧
    build_decision_prompts { stKhartoum with confidence_score := 1/2 } =
      [promptLowConfidence, promptFewEvents] := by
  constructor
  · intro s
    rcases hrc : riskCandidates s.trend_analysis with _ | ⟨x, xs⟩
    · by_cases h1 : s.confidence_score < 7/10 <;>
        by_cases h2 : (pyGet (asDictOpt s.validation) "validation_status" == PyVal.vstr "WARNING" ||
          pyGet (asDictOpt s.validation) "validation_status" == PyVal.vstr "FAILED") = true <;>
        by_cases h3 : s.events.length < 5 <;>
        refine ⟨?_, fun v => rfl, ?_, ?_, ?_, ?_, ?_⟩ <;>
          simp [build_decision_prompts, h1, h2, h3, hrc,
            promptLowConfidence, promptValidationIssues, promptFewEvents, promptHighRisk,
            promptGeneric]
    · by_cases h4 : (70 : Rat) ≤ xs.foldl max x <;>
        by_cases h1 : s.confidence_score < 7/10 <;>
        by_cases h2 : (pyGet (asDictOpt s.validation) "validation_status" == PyVal.vstr "WARNING" ||
          pyGet (asDictOpt s.validation) "validation_status" == PyVal.vstr "FAILED") = true <;>
        by_cases h3 : s.events.length < 5 <;>
        refine ⟨?_, fun v => rfl, ?_, ?_, ?_, ?_, ?_⟩ <;>
          simp [build_decision_prompts, h1, h2, h3, h4, hrc,
            promptLowConfidence, promptValidationIssues, promptFewEvents, promptHighRisk,
            promptGeneric] <;>
          first
            | exact (le_foldl_max_iff 70 x xs).mp h4
            | (intro hx
               rcases (le_foldl_max_iff 70 x xs).mp h4 with h | h
               · exact absurd h (not_le.mpr hx)
               · exact h)
            | (have h5 : ¬ (70 ≤ x ∨ ∃ y ∈ xs, 70 ≤ y) := fun hcx =>
                 h4 ((le_foldl_max_iff 70 x xs).mpr hcx)
               push_neg at h5
               exact h5)
  · have hc : ((1:Rat)/2 < 7/10) := by norm_num
    have h : ({ stKhartoum with confidence_score := 1/2 } : WfState).confidence_score < 7/10 := hc
    simp only [build_decision_prompts]
    rw [if_pos h]
    rfl

end SudanCram
